import Mathlib

set_option linter.unusedVariables false

/-!
Shallow embedding of the video-processing coordinator
(`api-server/routes/jobs.js`, `api-server/routes/videos.js`,
`api-server/middleware/validation.js`) and proofs about its
job-lifecycle, authorization and catalog behaviour.

Ids and timestamps are abstracted to `Nat`; the PostgreSQL tables are
lists of rows; the Redis queue (`lPush`) is a list with new descriptors
prepended; every route handler is a pure function from the database
state, the authenticated caller and the request to an
`Except ApiError` result.
-/

namespace VideoPlatform

/-- Roles as produced by the auth middleware (`user` / `admin`). -/
inductive Role where
  | user
  | admin
deriving DecidableEq, Repr

/-- The authenticated principal (`req.user`): id and role. -/
structure AuthUser where
  id : Nat
  role : Role
deriving DecidableEq, Repr

/-- Video privacy values (`public`, `private`, `unlisted`). -/
inductive Privacy where
  | public
  | private'
  | unlisted
deriving DecidableEq, Repr

/-- Video status values (`pending`, `processing`, `completed`, `failed`). -/
inductive VideoStatus where
  | pending
  | processing
  | completed
  | failed
deriving DecidableEq, Repr

/-- Job status values (`queued`, `in_progress`, `completed`, `failed`, `cancelled`). -/
inductive JobStatus where
  | queued
  | in_progress
  | completed
  | failed
  | cancelled
deriving DecidableEq, Repr

/-- Job types accepted by `schemas.processingJob`. -/
inductive JobType where
  | encoding
  | thumbnail
  | metadata_extraction
  | quality_analysis
  | upload_to_cdn
deriving DecidableEq, Repr

/-- A row of the `videos` table (columns used by the routes). -/
structure Video where
  id : Nat
  user_id : Nat
  title : String
  description : Option String
  file_path : String
  file_size : Nat
  privacy : Privacy
  status : VideoStatus
  created_at : Nat
  updated_at : Nat
deriving DecidableEq, Repr

/-- A row of the `processing_jobs` table. -/
structure ProcessingJob where
  id : Nat
  video_id : Nat
  job_type : JobType
  status : JobStatus
  priority : Nat
  progress : Int
  settings : Option String
  error_message : Option String
  result_data : Option String
  created_at : Nat
  updated_at : Nat
  completed_at : Option Nat
deriving DecidableEq, Repr

/-- The JSON descriptor pushed onto the Redis `video_processing_queue`.
`POST /api/jobs` includes `settings` and no `file_path`; the upload
route includes `file_path` and no `settings`. -/
structure JobDescriptor where
  job_id : Nat
  video_id : Nat
  job_type : JobType
  file_path : Option String
  priority : Nat
  settings : Option String
  created_at : Nat
deriving DecidableEq, Repr

/-- Database plus queue state. -/
structure Db where
  videos : List Video
  video_tags : List (Nat × String)
  jobs : List ProcessingJob
  queue : List JobDescriptor
deriving DecidableEq, Repr

/-- Stable error codes returned by the handlers. -/
inductive ApiError where
  | VIDEO_NOT_FOUND
  | JOB_NOT_FOUND
  | NOT_AUTHORIZED
  | INVALID_VIDEO_STATUS
  | INVALID_STATUS
  | CANNOT_CANCEL_JOB
  | FILE_REQUIRED
  | NO_UPDATE_FIELDS
  | UPDATE_ERROR
  | VALIDATION_ERROR
deriving DecidableEq, Repr

/-- `SELECT * FROM processing_jobs WHERE id = $1` (first row). -/
def findJob (db : Db) (id : Nat) : Option ProcessingJob :=
  db.jobs.find? (fun j => j.id == id)

/-- `SELECT ... FROM videos WHERE id = $1` (first row). -/
def findVideo (db : Db) (id : Nat) : Option Video :=
  db.videos.find? (fun v => v.id == id)

/-- `UPDATE processing_jobs SET ... WHERE id = $1`. -/
def updateJobs (db : Db) (id : Nat) (f : ProcessingJob → ProcessingJob) : Db :=
  { db with jobs := db.jobs.map (fun j => if j.id == id then f j else j) }

/-- `UPDATE videos SET status = $1, updated_at = NOW() WHERE id = $2`. -/
def updateVideoStatus (db : Db) (vid : Nat) (s : VideoStatus) (now : Nat) : Db :=
  { db with videos := db.videos.map (fun v =>
      if v.id == vid then { v with status := s, updated_at := now } else v) }

/-! ## PUT /api/jobs/:id/status -/

/-- Request body of `PUT /api/jobs/:id/status`. -/
structure UpdateStatusBody where
  status : String
  progress : Option Int
  error_message : Option String
  result_data : Option String
deriving DecidableEq, Repr

/-- `validStatuses.includes(status)` as a parser. -/
def parseJobStatus : String → Option JobStatus
  | "queued" => some .queued
  | "in_progress" => some .in_progress
  | "completed" => some .completed
  | "failed" => some .failed
  | "cancelled" => some .cancelled
  | _ => none

/-- `Math.max(0, Math.min(100, progress))`. -/
def clampProgress (p : Int) : Int := max 0 (min 100 p)

/-- The row update performed by the handler's dynamic `UPDATE` statement. -/
def applyJobUpdate (j : ProcessingJob) (s : JobStatus) (body : UpdateStatusBody)
    (now : Nat) : ProcessingJob :=
  { j with
    status := s
    updated_at := now
    progress := match body.progress with
      | some p => clampProgress p
      | none => j.progress
    error_message := match body.error_message with
      | some m => some m
      | none => j.error_message
    result_data := match body.result_data with
      | some r => some r
      | none => j.result_data
    completed_at := if s = .completed then some now else j.completed_at }

/-- Handler of `PUT /api/jobs/:id/status` (routes/jobs.js lines 230-315).
Beyond `authenticateToken` the route performs no authorization check, and
beyond membership in `validStatuses` it performs no transition check.
After the job row update it propagates to the video: on `completed` only
for `encoding` jobs, on `failed` for every job type. -/
def updateJobStatus (db : Db) (caller : AuthUser) (id : Nat) (body : UpdateStatusBody)
    (now : Nat) : Except ApiError (Db × ProcessingJob) :=
  match parseJobStatus body.status with
  | none => .error .INVALID_STATUS
  | some s =>
    match findJob db id with
    | none => .error .JOB_NOT_FOUND
    | some job =>
      let db1 := updateJobs db id (fun j => applyJobUpdate j s body now)
      let db2 :=
        if s = .completed ∧ job.job_type = .encoding then
          updateVideoStatus db1 job.video_id .completed now
        else if s = .failed then
          updateVideoStatus db1 job.video_id .failed now
        else db1
      .ok (db2, applyJobUpdate job s body now)

/-! ## POST /api/jobs -/

/-- Request body of `POST /api/jobs` after `schemas.processingJob`
validation (priority defaulted to 5, integer in [1,10]). -/
structure CreateJobBody where
  video_id : Nat
  job_type : JobType
  priority : Nat
  settings : Option String
deriving DecidableEq, Repr

/-- Handler of `POST /api/jobs` (routes/jobs.js lines 160-227).
`jobId` stands for the fresh `uuidv4()`, `now` for `NOW()`. -/
def createJob (db : Db) (caller : AuthUser) (body : CreateJobBody) (jobId : Nat)
    (now : Nat) : Except ApiError (Db × ProcessingJob) :=
  match findVideo db body.video_id with
  | none => .error .VIDEO_NOT_FOUND
  | some video =>
    if video.user_id ≠ caller.id ∧ caller.role ≠ .admin then
      .error .NOT_AUTHORIZED
    else if video.status = .failed then
      .error .INVALID_VIDEO_STATUS
    else
      let job : ProcessingJob :=
        { id := jobId
          video_id := body.video_id
          job_type := body.job_type
          status := .queued
          priority := body.priority
          progress := 0
          settings := body.settings
          error_message := none
          result_data := none
          created_at := now
          updated_at := now
          completed_at := none }
      let desc : JobDescriptor :=
        { job_id := jobId
          video_id := body.video_id
          job_type := body.job_type
          file_path := none
          priority := body.priority
          settings := body.settings
          created_at := now }
      .ok ({ db with jobs := db.jobs ++ [job], queue := desc :: db.queue }, job)

/-! ## POST /api/jobs/:id/cancel -/

/-- The owning user id of a job, via `LEFT JOIN videos` (an absent video
gives SQL NULL, never equal to the caller's id). -/
def jobOwner (db : Db) (job : ProcessingJob) : Option Nat :=
  (findVideo db job.video_id).map (fun v => v.user_id)

/-- Handler of `POST /api/jobs/:id/cancel` (routes/jobs.js lines 318-378). -/
def cancelJob (db : Db) (caller : AuthUser) (id : Nat) (now : Nat) :
    Except ApiError (Db × ProcessingJob) :=
  match findJob db id with
  | none => .error .JOB_NOT_FOUND
  | some job =>
    if jobOwner db job ≠ some caller.id ∧ caller.role ≠ .admin then
      .error .NOT_AUTHORIZED
    else if job.status = .completed ∨ job.status = .failed ∨ job.status = .cancelled then
      .error .CANNOT_CANCEL_JOB
    else
      .ok (updateJobs db id (fun j => { j with status := .cancelled, updated_at := now }),
           { job with status := .cancelled, updated_at := now })

/-! ## listQuery validation (`schemas.listQuery`) -/

/-- Raw query string of a listing request, before Joi validation. -/
structure ListQueryRaw where
  page : Option Int
  limit : Option Int
  sort : Option String
  order : Option String
  status : Option String
  search : Option String
deriving DecidableEq, Repr

/-- Allow-listed sort fields. -/
inductive SortField where
  | created_at
  | updated_at
  | title
  | status
deriving DecidableEq, Repr

/-- Sort directions. -/
inductive SortOrder where
  | asc
  | desc
deriving DecidableEq, Repr

/-- Validated listing query (defaults applied). -/
structure ListQuery where
  page : Nat
  limit : Nat
  sort : SortField
  order : SortOrder
  status : Option VideoStatus
  search : Option String
deriving DecidableEq, Repr

/-- `Joi.string().valid('created_at','updated_at','title','status')`. -/
def parseSortField : String → Option SortField
  | "created_at" => some .created_at
  | "updated_at" => some .updated_at
  | "title" => some .title
  | "status" => some .status
  | _ => none

/-- `Joi.string().valid('asc','desc')`. -/
def parseSortOrder : String → Option SortOrder
  | "asc" => some .asc
  | "desc" => some .desc
  | _ => none

/-- `Joi.string().valid('pending','processing','completed','failed')`. -/
def parseVideoStatus : String → Option VideoStatus
  | "pending" => some .pending
  | "processing" => some .processing
  | "completed" => some .completed
  | "failed" => some .failed
  | _ => none

/-- `Joi.number().integer().min(1).default(1)`. -/
def joiPage : Option Int → Option Nat
  | none => some 1
  | some p => if 1 ≤ p then some p.toNat else none

/-- `Joi.number().integer().min(1).max(100).default(20)`. -/
def joiLimit : Option Int → Option Nat
  | none => some 20
  | some l => if 1 ≤ l ∧ l ≤ 100 then some l.toNat else none

/-- Sort field with its default. -/
def joiSort : Option String → Option SortField
  | none => some .created_at
  | some s => parseSortField s

/-- Sort order with its default. -/
def joiOrder : Option String → Option SortOrder
  | none => some .desc
  | some s => parseSortOrder s

/-- Optional status filter. -/
def joiStatus : Option String → Option (Option VideoStatus)
  | none => some none
  | some s => (parseVideoStatus s).map some

/-- `Joi.string().max(100)` optional search term. -/
def joiSearch : Option String → Option (Option String)
  | none => some none
  | some s => if s.length ≤ 100 then some (some s) else none

/-- `schemas.listQuery` validation: page ≥ 1 (default 1), 1 ≤ limit ≤ 100
(default 20), allow-listed sort (default created_at) and order (default
desc), optional status filter, search at most 100 characters. -/
def validateListQuery (b : ListQueryRaw) : Option ListQuery := do
  let page ← joiPage b.page
  let limit ← joiLimit b.limit
  let sort ← joiSort b.sort
  let order ← joiOrder b.order
  let status ← joiStatus b.status
  let search ← joiSearch b.search
  some { page := page, limit := limit, sort := sort, order := order,
         status := status, search := search }

/-! ## GET /api/videos -/

/-- `column ILIKE '%pat%'`: case-insensitive substring test. -/
def ilike (hay pat : String) : Bool :=
  pat.isEmpty || ((hay.toLower).splitOn (pat.toLower)).length ≥ 2

/-- The WHERE clause of the listing query: privacy scoping
(`privacy = 'public'` for anonymous callers, `privacy = 'public' OR
user_id = caller` for authenticated ones), optional status filter,
optional title/description search. -/
def videoWhere (caller : Option AuthUser) (q : ListQuery) (v : Video) : Bool :=
  (match caller with
    | none => v.privacy == .public
    | some u => v.privacy == .public || v.user_id == u.id)
  && (match q.status with
    | some s => v.status == s
    | none => true)
  && (match q.search with
    | some s => ilike v.title s ||
        (match v.description with
          | some d => ilike d s
          | none => false)
    | none => true)

/-- Textual value used by `ORDER BY v.status`. -/
def videoStatusText : VideoStatus → String
  | .pending => "pending"
  | .processing => "processing"
  | .completed => "completed"
  | .failed => "failed"

/-- Comparison on the selected sort column. -/
def videoFieldLe (f : SortField) (a b : Video) : Bool :=
  match f with
  | .created_at => a.created_at ≤ b.created_at
  | .updated_at => a.updated_at ≤ b.updated_at
  | .title => a.title ≤ b.title
  | .status => videoStatusText a.status ≤ videoStatusText b.status

/-- `ORDER BY v.{sort} {order}`. -/
def videoLe (q : ListQuery) (a b : Video) : Bool :=
  match q.order with
  | .asc => videoFieldLe q.sort a b
  | .desc => videoFieldLe q.sort b a

/-- Handler of `GET /api/videos` (routes/videos.js): filter by the WHERE
clause, sort, then apply `LIMIT limit OFFSET (page-1)*limit`. Returns the
page of videos. -/
def listVideos (db : Db) (caller : Option AuthUser) (q : ListQuery) : List Video :=
  let filtered := db.videos.filter (videoWhere caller q)
  let sorted := filtered.mergeSort (videoLe q)
  (sorted.drop ((q.page - 1) * q.limit)).take q.limit

/-! ## POST /api/videos (upload) -/

/-- The multipart file produced by multer. -/
structure UploadFile where
  path : String
  size : Nat
deriving DecidableEq, Repr

/-- Body of `POST /api/videos` after `schemas.videoUpload` validation
(privacy defaulted to public). -/
structure VideoUploadBody where
  title : String
  description : Option String
  tags : Option (List String)
  privacy : Privacy
deriving DecidableEq, Repr

/-- Handler of `POST /api/videos` (routes/videos.js lines 261-334):
inserts the video with status `pending`, inserts its tags, queues an
initial `metadata_extraction` job with status `queued` and priority 5,
and pushes the matching descriptor onto the Redis queue. `videoId` and
`jobId` stand for the two fresh `uuidv4()` values. -/
def uploadVideo (db : Db) (caller : AuthUser) (file : Option UploadFile)
    (body : VideoUploadBody) (videoId jobId : Nat) (now : Nat) :
    Except ApiError (Db × Video × Nat) :=
  match file with
  | none => .error .FILE_REQUIRED
  | some f =>
    let video : Video :=
      { id := videoId
        user_id := caller.id
        title := body.title
        description := body.description
        file_path := f.path
        file_size := f.size
        privacy := body.privacy
        status := .pending
        created_at := now
        updated_at := now }
    let tagRows := (body.tags.getD []).map (fun t => (videoId, t))
    let job : ProcessingJob :=
      { id := jobId
        video_id := videoId
        job_type := .metadata_extraction
        status := .queued
        priority := 5
        progress := 0
        settings := none
        error_message := none
        result_data := none
        created_at := now
        updated_at := now
        completed_at := none }
    let desc : JobDescriptor :=
      { job_id := jobId
        video_id := videoId
        job_type := .metadata_extraction
        file_path := some f.path
        priority := 5
        settings := none
        created_at := now }
    .ok ({ db with
            videos := db.videos ++ [video]
            video_tags := db.video_tags ++ tagRows
            jobs := db.jobs ++ [job]
            queue := desc :: db.queue },
         video, jobId)

/-! ## PUT /api/videos/:id -/

/-- Raw body of `PUT /api/videos/:id`, before `schemas.videoUpdate`. -/
structure VideoUpdateRaw where
  title : Option String
  description : Option String
  tags : Option (List String)
  privacy : Option String
  status : Option String
deriving DecidableEq, Repr

/-- Validated body of `PUT /api/videos/:id`. Note that the schema admits
a `status` field with any of the four video status values. -/
structure VideoUpdatePatch where
  title : Option String
  description : Option String
  tags : Option (List String)
  privacy : Option Privacy
  status : Option VideoStatus
deriving DecidableEq, Repr

/-- `Joi.string().valid('public','private','unlisted')`. -/
def parsePrivacy : String → Option Privacy
  | "public" => some .public
  | "private" => some .private'
  | "unlisted" => some .unlisted
  | _ => none

/-- `schemas.videoUpdate` validation: every field optional; title 1-255
chars, description ≤ 1000 chars, at most 10 tags of ≤ 50 chars, privacy
and status restricted to their enumerations. -/
def validateVideoUpdate (b : VideoUpdateRaw) : Option VideoUpdatePatch := do
  let title ← match b.title with
    | none => some none
    | some t => if 1 ≤ t.length ∧ t.length ≤ 255 then some (some t) else none
  let description ← match b.description with
    | none => some none
    | some d => if d.length ≤ 1000 then some (some d) else none
  let tags ← match b.tags with
    | none => some none
    | some ts =>
        if ts.length ≤ 10 ∧ ts.all (fun t => decide (t.length ≤ 50)) then
          some (some ts)
        else none
  let privacy ← match b.privacy with
    | none => some none
    | some p => (parsePrivacy p).map some
  let status ← match b.status with
    | none => some none
    | some s => (parseVideoStatus s).map some
  some { title := title, description := description, tags := tags,
         privacy := privacy, status := status }

/-- True when the patch carries at least one field
(`updateFields.length > 0` in the handler). -/
def patchHasField (p : VideoUpdatePatch) : Bool :=
  p.title.isSome || p.description.isSome || p.tags.isSome ||
  p.privacy.isSome || p.status.isSome

/-- The dynamic `UPDATE videos SET key = value, ..., updated_at = now`. -/
def applyVideoPatch (v : Video) (p : VideoUpdatePatch) (now : Nat) : Video :=
  { v with
    title := p.title.getD v.title
    description := match p.description with
      | some d => some d
      | none => v.description
    privacy := p.privacy.getD v.privacy
    status := p.status.getD v.status
    updated_at := now }

/-- Handler of `PUT /api/videos/:id` (routes/videos.js lines 337-403).
A patch containing `tags` produces `UPDATE videos SET tags = ...`, which
hits a non-existent column of the `videos` table and falls into the
handler's catch block (500 UPDATE_ERROR). -/
def updateVideo (db : Db) (caller : AuthUser) (id : Nat) (patch : VideoUpdatePatch)
    (now : Nat) : Except ApiError (Db × Video) :=
  match findVideo db id with
  | none => .error .VIDEO_NOT_FOUND
  | some video =>
    if video.user_id ≠ caller.id ∧ caller.role ≠ .admin then
      .error .NOT_AUTHORIZED
    else if patchHasField patch = false then
      .error .NO_UPDATE_FIELDS
    else if patch.tags.isSome then
      .error .UPDATE_ERROR
    else
      .ok ({ db with videos := db.videos.map (fun v =>
              if v.id == id then applyVideoPatch v patch now else v) },
           applyVideoPatch video patch now)

/-! ## DELETE /api/videos/:id -/

/-- Handler of `DELETE /api/videos/:id` (routes/videos.js lines 406-460):
inside one transaction it deletes the video's tag rows, deletes every
`processing_jobs` row whose `video_id` matches, then deletes the video
row. -/
def deleteVideo (db : Db) (caller : AuthUser) (id : Nat) : Except ApiError Db :=
  match findVideo db id with
  | none => .error .VIDEO_NOT_FOUND
  | some video =>
    if video.user_id ≠ caller.id ∧ caller.role ≠ .admin then
      .error .NOT_AUTHORIZED
    else
      .ok { db with
        video_tags := db.video_tags.filter (fun t => t.1 != id)
        jobs := db.jobs.filter (fun j => j.video_id != id)
        videos := db.videos.filter (fun v => v.id != id) }

/-! ## Concrete fixtures used by counterexamples and witnesses -/

/-- A public pending video owned by user 1. -/
def video1 : Video :=
  { id := 1, user_id := 1, title := "clip", description := none,
    file_path := "uploads/videos/clip.mp4", file_size := 10,
    privacy := .public, status := .pending, created_at := 0, updated_at := 0 }

/-- The owner of `video1`. -/
def alice : AuthUser := { id := 1, role := .user }

/-- An unrelated plain user. -/
def mallory : AuthUser := { id := 2, role := .user }

/-- An administrator. -/
def adminU : AuthUser := { id := 3, role := .admin }

/-- A completed thumbnail job on `video1`. -/
def completedJob : ProcessingJob :=
  { id := 1, video_id := 1, job_type := .thumbnail, status := .completed,
    priority := 5, progress := 100, settings := none, error_message := none,
    result_data := none, created_at := 0, updated_at := 0, completed_at := some 0 }

/-- An in-progress thumbnail job on `video1`. -/
def thumbJob : ProcessingJob :=
  { id := 2, video_id := 1, job_type := .thumbnail, status := .in_progress,
    priority := 5, progress := 10, settings := none, error_message := none,
    result_data := none, created_at := 0, updated_at := 1, completed_at := none }

/-- An in-progress encoding job on `video1`. -/
def encodingJob : ProcessingJob :=
  { id := 3, video_id := 1, job_type := .encoding, status := .in_progress,
    priority := 5, progress := 40, settings := none, error_message := none,
    result_data := none, created_at := 0, updated_at := 1, completed_at := none }

/-- `video1` together with a completed job. -/
def dbCompleted : Db :=
  { videos := [video1], video_tags := [], jobs := [completedJob], queue := [] }

/-- A request body asking for status `queued`. -/
def requeueBody : UpdateStatusBody :=
  { status := "queued", progress := none, error_message := none, result_data := none }

/-- A request body asking for status `failed`. -/
def failBody : UpdateStatusBody :=
  { status := "failed", progress := none, error_message := some "boom", result_data := none }

/-- A request body asking for status `completed`. -/
def completeBody : UpdateStatusBody :=
  { status := "completed", progress := some 100, error_message := none, result_data := none }

/-! ## C1: transition validation in updateStatus -/

/-- C1 counterexample: the claim says a request that is not an edge of
the state machine fails `InvalidTransition` and `completed → queued` is
never observable. On a completed job, `PUT /api/jobs/:id/status` with
status `queued` succeeds and the job's stored status becomes `queued`. -/
theorem updateStatus_accepts_completed_to_queued :
    ((updateJobStatus dbCompleted alice 1 requeueBody 5).toOption.map
      (fun r => r.2.status)) = some JobStatus.queued := by decide

/-- C1 (amended): the handler checks only that the requested status is
one of the five valid values and that the job exists; it performs no
transition validation, so every requested status is applied whatever the
current status, terminal states included. -/
theorem updateStatus_no_transition_check (db : Db) (caller : AuthUser) (id : Nat)
    (body : UpdateStatusBody) (now : Nat) (s : JobStatus) (job : ProcessingJob)
    (hs : parseJobStatus body.status = some s)
    (hj : findJob db id = some job) :
    ∃ db', updateJobStatus db caller id body now
      = .ok (db', applyJobUpdate job s body now) := by
  unfold updateJobStatus
  rw [hs, hj]
  exact ⟨_, rfl⟩

/-- Witness for C1 (amended): a completed job is moved back to `queued`. -/
theorem updateStatus_no_transition_check_witness :
    ∃ db', updateJobStatus dbCompleted alice 1 requeueBody 5
      = .ok (db', applyJobUpdate completedJob .queued requeueBody 5) :=
  updateStatus_no_transition_check dbCompleted alice 1 requeueBody 5 .queued
    completedJob (by decide) (by decide)

/-! ## C2: propagation of terminal job outcomes to the video -/

/-- `video1` together with the in-progress thumbnail job. -/
def dbThumb : Db :=
  { videos := [video1], video_tags := [], jobs := [thumbJob], queue := [] }

/-- `video1` together with the in-progress encoding job. -/
def dbEncoding : Db :=
  { videos := [video1], video_tags := [], jobs := [encodingJob], queue := [] }

/-- C2 counterexample: the claim says a terminal outcome of a
non-encoding job leaves the video's status unchanged; reporting `failed`
on a thumbnail job sets the parent video's status to `failed`. -/
theorem thumbnail_failure_sets_video_failed :
    ((updateJobStatus dbThumb adminU 2 failBody 9).toOption.map
      (fun r => (findVideo r.1 1).map (fun v => v.status)))
      = some (some VideoStatus.failed) := by decide

/-- C2 (amended): after a successful status update the videos table is
rewritten to `completed` at the job's video only when the new status is
`completed` and the job's type is `encoding`; it is rewritten to
`failed` whenever the new status is `failed`, whatever the job's type;
any other update leaves the videos table unchanged. -/
theorem updateStatus_video_propagation (db : Db) (caller : AuthUser) (id : Nat)
    (body : UpdateStatusBody) (now : Nat) (s : JobStatus) (job : ProcessingJob)
    (hs : parseJobStatus body.status = some s)
    (hj : findJob db id = some job) :
    ∃ db' j', updateJobStatus db caller id body now = .ok (db', j') ∧
      db'.videos =
        (if s = .completed ∧ job.job_type = .encoding then
          db.videos.map (fun v => if v.id == job.video_id then
            { v with status := VideoStatus.completed, updated_at := now } else v)
        else if s = .failed then
          db.videos.map (fun v => if v.id == job.video_id then
            { v with status := VideoStatus.failed, updated_at := now } else v)
        else db.videos) := by
  unfold updateJobStatus
  rw [hs, hj]
  by_cases h1 : s = .completed ∧ job.job_type = .encoding
  · exact ⟨_, _, rfl, by rw [if_pos h1, if_pos h1]; rfl⟩
  · by_cases h2 : s = .failed
    · exact ⟨_, _, rfl, by rw [if_neg h1, if_neg h1, if_pos h2, if_pos h2]; rfl⟩
    · exact ⟨_, _, rfl, by rw [if_neg h1, if_neg h1, if_neg h2, if_neg h2]; rfl⟩

/-- Witness for C2 (amended): reporting `failed` on the thumbnail job. -/
theorem updateStatus_video_propagation_witness :
    ∃ db' j', updateJobStatus dbThumb adminU 2 failBody 9 = .ok (db', j') ∧
      db'.videos =
        (if JobStatus.failed = .completed ∧ thumbJob.job_type = .encoding then
          dbThumb.videos.map (fun v => if v.id == thumbJob.video_id then
            { v with status := VideoStatus.completed, updated_at := 9 } else v)
        else if JobStatus.failed = .failed then
          dbThumb.videos.map (fun v => if v.id == thumbJob.video_id then
            { v with status := VideoStatus.failed, updated_at := 9 } else v)
        else dbThumb.videos) :=
  updateStatus_video_propagation dbThumb adminU 2 failBody 9 .failed thumbJob
    (by decide) (by decide)

/-! ## C3: authorization of terminal status reports -/

/-- C3: the route applies no authorization at all beyond token
authentication: the handler's result never depends on who the caller is,
and concretely the plain, unrelated user `mallory` (not owner of
`video1`, not an admin, not a worker identity) successfully reports
`completed` on the encoding job. The claim — that terminal reports are
restricted to the owning subject, admins or a worker identity — is the
documented intent ("admin only or processing workers") but is not
enforced by the code. -/
theorem updateStatus_ignores_caller_identity :
    (∀ (db : Db) (c c' : AuthUser) (id : Nat) (body : UpdateStatusBody) (now : Nat),
      updateJobStatus db c id body now = updateJobStatus db c' id body now) ∧
    ((updateJobStatus dbEncoding mallory 3 completeBody 7).toOption.map
      (fun r => r.2.status)) = some JobStatus.completed :=
  ⟨fun _ _ _ _ _ _ => rfl, by decide⟩

/-! ## C4: job creation -/

/-- The job row inserted by `POST /api/jobs`. -/
def createdJob (body : CreateJobBody) (jobId now : Nat) : ProcessingJob :=
  { id := jobId, video_id := body.video_id, job_type := body.job_type,
    status := .queued, priority := body.priority, progress := 0,
    settings := body.settings, error_message := none, result_data := none,
    created_at := now, updated_at := now, completed_at := none }

/-- The descriptor published by `POST /api/jobs`. -/
def createdDescriptor (body : CreateJobBody) (jobId now : Nat) : JobDescriptor :=
  { job_id := jobId, video_id := body.video_id, job_type := body.job_type,
    file_path := none, priority := body.priority, settings := body.settings,
    created_at := now }

/-- C4: `POST /api/jobs` fails NotFound when the video does not resolve,
Forbidden when the caller is neither the owner nor an admin, and
InvalidState when the video's status is `failed`; in every failure case
nothing is inserted or published (the handler returns before touching
state). Otherwise it inserts exactly one job with status `queued` and
pushes the descriptor `{job_id, video_id, job_type, priority, settings,
created_at}` onto the dispatch queue. -/
theorem createJob_spec (db : Db) (caller : AuthUser) (body : CreateJobBody)
    (jobId now : Nat) :
    (findVideo db body.video_id = none →
      createJob db caller body jobId now = .error .VIDEO_NOT_FOUND) ∧
    (∀ video, findVideo db body.video_id = some video →
      video.user_id ≠ caller.id → caller.role ≠ .admin →
      createJob db caller body jobId now = .error .NOT_AUTHORIZED) ∧
    (∀ video, findVideo db body.video_id = some video →
      (video.user_id = caller.id ∨ caller.role = .admin) →
      video.status = .failed →
      createJob db caller body jobId now = .error .INVALID_VIDEO_STATUS) ∧
    (∀ video, findVideo db body.video_id = some video →
      (video.user_id = caller.id ∨ caller.role = .admin) →
      video.status ≠ .failed →
      createJob db caller body jobId now =
        .ok ({ db with
                jobs := db.jobs ++ [createdJob body jobId now]
                queue := createdDescriptor body jobId now :: db.queue },
             createdJob body jobId now)) := by
  refine ⟨?_, ?_, ?_, ?_⟩
  · intro h
    simp only [createJob, h]
  · intro video h hu hr
    simp only [createJob, h]
    rw [if_pos ⟨hu, hr⟩]
  · intro video h hauth hst
    have hno : ¬(video.user_id ≠ caller.id ∧ caller.role ≠ .admin) := by tauto
    simp only [createJob, h]
    rw [if_neg hno, if_pos hst]
  · intro video h hauth hst
    have hno : ¬(video.user_id ≠ caller.id ∧ caller.role ≠ .admin) := by tauto
    simp only [createJob, h]
    rw [if_neg hno, if_neg hst]
    rfl

/-- Witness for C4: the owner creates an encoding job against `video1`. -/
theorem createJob_spec_witness :
    createJob dbCompleted alice
      { video_id := 1, job_type := .encoding, priority := 5, settings := none } 7 3 =
      .ok ({ dbCompleted with
              jobs := dbCompleted.jobs ++
                [createdJob { video_id := 1, job_type := .encoding, priority := 5, settings := none } 7 3]
              queue := createdDescriptor { video_id := 1, job_type := .encoding, priority := 5, settings := none } 7 3
                :: dbCompleted.queue },
           createdJob { video_id := 1, job_type := .encoding, priority := 5, settings := none } 7 3) :=
  (createJob_spec dbCompleted alice
      { video_id := 1, job_type := .encoding, priority := 5, settings := none } 7 3).2.2.2
    video1 (by decide) (Or.inl (by decide)) (by decide)

/-! ## C5: progress clamping -/

/-- C5: whenever `PUT /api/jobs/:id/status` succeeds, the stored
progress lies in [0,100] when the request supplied a progress value
(out-of-range values are clamped), and is unchanged when it was
omitted. -/
theorem updateStatus_progress_clamped (db : Db) (caller : AuthUser) (id : Nat)
    (body : UpdateStatusBody) (now : Nat) (db' : Db) (j' : ProcessingJob)
    (h : updateJobStatus db caller id body now = .ok (db', j')) :
    (∀ p, body.progress = some p → 0 ≤ j'.progress ∧ j'.progress ≤ 100) ∧
    (body.progress = none → ∀ job, findJob db id = some job →
      j'.progress = job.progress) := by
  unfold updateJobStatus at h
  cases hps : parseJobStatus body.status with
  | none => rw [hps] at h; exact absurd h (by simp)
  | some s =>
    rw [hps] at h
    cases hj : findJob db id with
    | none => rw [hj] at h; exact absurd h (by simp)
    | some job =>
      rw [hj] at h
      injection h with h1
      have hj' : j' = applyJobUpdate job s body now := (congrArg Prod.snd h1).symm
      subst hj'
      constructor
      · intro p hp
        simp only [applyJobUpdate, hp, clampProgress]
        constructor
        · exact le_max_left 0 _
        · exact max_le (by norm_num) (min_le_left 100 p)
      · intro hn job2 hj2
        injection hj2 with hh
        subst hh
        simp [applyJobUpdate, hn]

/-- A status report carrying an out-of-range progress value. -/
def progBody : UpdateStatusBody :=
  { status := "in_progress", progress := some 150, error_message := none,
    result_data := none }

/-- Witness for C5: progress 150 is stored clamped into [0,100]. -/
theorem updateStatus_progress_clamped_witness :
    0 ≤ (applyJobUpdate thumbJob .in_progress progBody 5).progress ∧
    (applyJobUpdate thumbJob .in_progress progBody 5).progress ≤ 100 :=
  (updateStatus_progress_clamped dbThumb alice 2 progBody 5
    (updateJobs dbThumb 2 (fun j => applyJobUpdate j .in_progress progBody 5))
    (applyJobUpdate thumbJob .in_progress progBody 5) rfl).1 150 rfl

/-! ## C6: job cancellation -/

/-- C6: `POST /api/jobs/:id/cancel` fails NotFound when the job is
absent, Forbidden when the caller is neither the owning subject nor an
admin, and CannotCancel when the job's status is terminal (so a second
cancel of an already-cancelled job is an error, not a silent success);
a successful cancel rewrites only `status` (to `cancelled`) and
`updated_at`, leaving every other field of the job unchanged. -/
theorem cancelJob_spec (db : Db) (caller : AuthUser) (id : Nat) (now : Nat) :
    (findJob db id = none →
      cancelJob db caller id now = .error .JOB_NOT_FOUND) ∧
    (∀ job, findJob db id = some job →
      jobOwner db job ≠ some caller.id → caller.role ≠ .admin →
      cancelJob db caller id now = .error .NOT_AUTHORIZED) ∧
    (∀ job, findJob db id = some job →
      (jobOwner db job = some caller.id ∨ caller.role = .admin) →
      (job.status = .completed ∨ job.status = .failed ∨ job.status = .cancelled) →
      cancelJob db caller id now = .error .CANNOT_CANCEL_JOB) ∧
    (∀ job, findJob db id = some job →
      (jobOwner db job = some caller.id ∨ caller.role = .admin) →
      (job.status = .queued ∨ job.status = .in_progress) →
      cancelJob db caller id now =
        .ok (updateJobs db id (fun j => { j with status := .cancelled, updated_at := now }),
             { job with status := .cancelled, updated_at := now })) := by
  refine ⟨?_, ?_, ?_, ?_⟩
  · intro h
    simp only [cancelJob, h]
  · intro job h hu hr
    simp only [cancelJob, h]
    rw [if_pos ⟨hu, hr⟩]
  · intro job h hauth hterm
    have hno : ¬(jobOwner db job ≠ some caller.id ∧ caller.role ≠ .admin) := by tauto
    simp only [cancelJob, h]
    rw [if_neg hno, if_pos hterm]
  · intro job h hauth hlive
    have hno : ¬(jobOwner db job ≠ some caller.id ∧ caller.role ≠ .admin) := by tauto
    have hnt : ¬(job.status = .completed ∨ job.status = .failed ∨ job.status = .cancelled) := by
      rcases hlive with hq | hp
      · rw [hq]; simp
      · rw [hp]; simp
    simp only [cancelJob, h]
    rw [if_neg hno, if_neg hnt]

/-- `video1` together with a cancelled job. -/
def cancelledJob : ProcessingJob :=
  { completedJob with id := 4, status := .cancelled, completed_at := none }

/-- Database holding the already-cancelled job. -/
def dbCancelled : Db :=
  { videos := [video1], video_tags := [], jobs := [cancelledJob], queue := [] }

/-- Witness for C6: cancelling the already-cancelled job 4 returns
CannotCancel instead of a silent success. -/
theorem cancelJob_spec_witness :
    cancelJob dbCancelled alice 4 8 = .error .CANNOT_CANCEL_JOB :=
  (cancelJob_spec dbCancelled alice 4 8).2.2.1 cancelledJob (by decide)
    (Or.inl (by decide)) (Or.inr (Or.inr (by decide)))

/-! ## C7: direct status writes through metadata update -/

/-- A raw metadata patch that only sets `status` to `completed`. -/
def statusRaw : VideoUpdateRaw :=
  { title := none, description := none, tags := none, privacy := none,
    status := some "completed" }

/-- The validated form of `statusRaw`. -/
def statusPatch : VideoUpdatePatch :=
  { title := none, description := none, tags := none, privacy := none,
    status := some .completed }

/-- C7 counterexample: the claim says a patch attempting to set `status`
is rejected, so no metadata update ever changes `video.status`. The
`videoUpdate` schema accepts `status = "completed"`, and the owner's
`PUT /api/videos/:id` with that patch flips the pending `video1` to
`completed`. -/
theorem owner_can_set_video_status_directly :
    validateVideoUpdate statusRaw = some statusPatch ∧
    ((updateVideo dbCompleted alice 1 statusPatch 9).toOption.map
      (fun r => r.2.status)) = some VideoStatus.completed := by decide

/-- C7 (amended): for an owner or admin, any schema-valid patch (with no
`tags` field and at least one field) is applied verbatim, `status`
included: the resulting video's status is the patch's status when
present and the old status otherwise. -/
theorem updateVideo_applies_status (db : Db) (caller : AuthUser) (id : Nat)
    (patch : VideoUpdatePatch) (now : Nat) (video : Video)
    (hv : findVideo db id = some video)
    (hauth : video.user_id = caller.id ∨ caller.role = .admin)
    (hfield : patchHasField patch = true)
    (htags : patch.tags = none) :
    updateVideo db caller id patch now =
      .ok ({ db with videos := db.videos.map (fun v =>
              if v.id == id then applyVideoPatch v patch now else v) },
           applyVideoPatch video patch now) ∧
    (applyVideoPatch video patch now).status = patch.status.getD video.status := by
  constructor
  · have hno : ¬(video.user_id ≠ caller.id ∧ caller.role ≠ .admin) := by tauto
    simp only [updateVideo, hv]
    rw [if_neg hno, if_neg (by simp [hfield]), if_neg (by simp [htags])]
  · rfl

/-- Witness for C7 (amended): the owner's status-only patch applied to
`video1`. -/
theorem updateVideo_applies_status_witness :
    updateVideo dbCompleted alice 1 statusPatch 9 =
      .ok ({ dbCompleted with videos := dbCompleted.videos.map (fun v =>
              if v.id == 1 then applyVideoPatch v statusPatch 9 else v) },
           applyVideoPatch video1 statusPatch 9) ∧
    (applyVideoPatch video1 statusPatch 9).status = statusPatch.status.getD video1.status :=
  updateVideo_applies_status dbCompleted alice 1 statusPatch 9 video1 (by decide)
    (Or.inl (by decide)) (by decide) rfl

/-! ## C8: video deletion cascade -/

/-- A queued job on `video1`. -/
def queuedJob : ProcessingJob :=
  { completedJob with id := 5, status := .queued, progress := 0, completed_at := none }

/-- `video1` together with the queued job. -/
def dbQueued : Db :=
  { videos := [video1], video_tags := [], jobs := [queuedJob], queue := [] }

/-- C8 counterexample: the claim says a successful delete force-cancels
the video's non-terminal jobs (transitions them to `cancelled`). The
handler instead hard-deletes the job rows: after the owner deletes
`video1`, no row for the queued job 5 exists at all (in particular none
with status `cancelled`). -/
theorem delete_removes_jobs_instead_of_cancelling :
    ((deleteVideo dbQueued alice 1).toOption.map
      (fun db' => db'.jobs.filter (fun j => j.id == 5))) = some [] := by decide

/-- C8 (amended): a successful delete removes, in one transaction, every
job row referencing the video (whatever its status, by row deletion, not
by a `cancelled` transition), every tag row, and the video row itself;
afterwards zero job rows reference the deleted video. -/
theorem deleteVideo_cascades (db : Db) (caller : AuthUser) (id : Nat) (video : Video)
    (hv : findVideo db id = some video)
    (hauth : video.user_id = caller.id ∨ caller.role = .admin) :
    deleteVideo db caller id = .ok
      { db with
        video_tags := db.video_tags.filter (fun t => t.1 != id)
        jobs := db.jobs.filter (fun j => j.video_id != id)
        videos := db.videos.filter (fun v => v.id != id) } ∧
    (∀ j ∈ db.jobs.filter (fun j => j.video_id != id), j.video_id ≠ id) ∧
    (∀ v ∈ db.videos.filter (fun v => v.id != id), v.id ≠ id) := by
  have hno : ¬(video.user_id ≠ caller.id ∧ caller.role ≠ .admin) := by tauto
  refine ⟨?_, ?_, ?_⟩
  · simp only [deleteVideo, hv]
    rw [if_neg hno]
  · intro j hj
    simpa using List.of_mem_filter hj
  · intro v hv'
    simpa using List.of_mem_filter hv'

/-- Witness for C8 (amended): the owner deletes `video1`; the queued job
row disappears with it. -/
theorem deleteVideo_cascades_witness :
    deleteVideo dbQueued alice 1 = .ok
      { dbQueued with
        video_tags := dbQueued.video_tags.filter (fun t => t.1 != 1)
        jobs := dbQueued.jobs.filter (fun j => j.video_id != 1)
        videos := dbQueued.videos.filter (fun v => v.id != 1) } ∧
    (∀ j ∈ dbQueued.jobs.filter (fun j => j.video_id != 1), j.video_id ≠ 1) ∧
    (∀ v ∈ dbQueued.videos.filter (fun v => v.id != 1), v.id ≠ 1) :=
  deleteVideo_cascades dbQueued alice 1 video1 (by decide) (Or.inl (by decide))

/-! ## C9: listing scope and page size -/

/-- A private video of user 1. -/
def privateVideo : Video :=
  { video1 with id := 2, privacy := .private' }

/-- Catalog holding only the private video. -/
def dbPrivate : Db :=
  { videos := [privateVideo], video_tags := [], jobs := [], queue := [] }

/-- The validated defaults of `schemas.listQuery`. -/
def defaultQuery : ListQuery :=
  { page := 1, limit := 20, sort := .created_at, order := .desc,
    status := none, search := none }

/-- C9 counterexample: the claim says an admin caller sees other users'
private/unlisted videos. The listing's privacy filter has no admin
bypass: the admin (id 3) listing a catalog holding only user 1's
private video receives the empty page. -/
theorem admin_does_not_see_others_private_videos :
    listVideos dbPrivate (some adminU) defaultQuery = [] := by
  have h : dbPrivate.videos.filter (videoWhere (some adminU) defaultQuery) = [] := by
    decide
  simp [listVideos, h]

/-- C9 (amended): every video on any listing page is either public or
owned by the authenticated caller — with no admin bypass, so an
anonymous caller sees only public videos; and every query accepted by
`schemas.listQuery` has limit ≤ 100. -/
theorem listVideos_privacy_scope (db : Db) (caller : Option AuthUser) (q : ListQuery) :
    (∀ v ∈ listVideos db caller q,
      v.privacy = .public ∨ ∃ u, caller = some u ∧ v.user_id = u.id) ∧
    (∀ raw q', validateListQuery raw = some q' → q'.limit ≤ 100) := by
  constructor
  · intro v hv
    simp only [listVideos] at hv
    have h2 : v ∈ db.videos.filter (videoWhere caller q) :=
      List.mem_mergeSort.mp (List.mem_of_mem_drop (List.mem_of_mem_take hv))
    have h3 := List.of_mem_filter h2
    unfold videoWhere at h3
    cases caller with
    | none =>
      simp only [Bool.and_eq_true, beq_iff_eq] at h3
      exact Or.inl h3.1.1
    | some u =>
      simp only [Bool.and_eq_true, Bool.or_eq_true, beq_iff_eq] at h3
      rcases h3.1.1 with hp | ho
      · exact Or.inl hp
      · exact Or.inr ⟨u, rfl, ho⟩
  · intro raw q' h
    unfold validateListQuery at h
    simp only [Option.bind_eq_bind, Option.bind_eq_some] at h
    obtain ⟨page, hp, limit, hl, sort, hs, order, ho, status, hst, search, hse, heq⟩ := h
    injection heq with heq'
    subst heq'
    show limit ≤ 100
    cases hraw : raw.limit with
    | none =>
      rw [hraw] at hl
      simp only [joiLimit] at hl
      injection hl with h20
      omega
    | some l =>
      rw [hraw] at hl
      simp only [joiLimit] at hl
      by_cases hc : 1 ≤ l ∧ l ≤ 100
      · rw [if_pos hc] at hl
        injection hl with hln
        omega
      · rw [if_neg hc] at hl
        cases hl

/-- Witness for C9 (amended): the default query's limit is within the cap. -/
theorem listVideos_privacy_scope_witness : defaultQuery.limit ≤ 100 :=
  (listVideos_privacy_scope dbPrivate none defaultQuery).2
    { page := none, limit := none, sort := none, order := none,
      status := none, search := none }
    defaultQuery rfl

/-! ## C10: upload queues an initial metadata job -/

/-- The video row inserted by `POST /api/videos`. -/
def uploadedVideo (caller : AuthUser) (f : UploadFile) (body : VideoUploadBody)
    (videoId now : Nat) : Video :=
  { id := videoId, user_id := caller.id, title := body.title,
    description := body.description, file_path := f.path, file_size := f.size,
    privacy := body.privacy, status := .pending, created_at := now,
    updated_at := now }

/-- The initial `metadata_extraction` job inserted by `POST /api/videos`. -/
def initialJob (videoId jobId now : Nat) : ProcessingJob :=
  { id := jobId, video_id := videoId, job_type := .metadata_extraction,
    status := .queued, priority := 5, progress := 0, settings := none,
    error_message := none, result_data := none, created_at := now,
    updated_at := now, completed_at := none }

/-- The descriptor pushed by `POST /api/videos`. -/
def initialDescriptor (f : UploadFile) (videoId jobId now : Nat) : JobDescriptor :=
  { job_id := jobId, video_id := videoId, job_type := .metadata_extraction,
    file_path := some f.path, priority := 5, settings := none,
    created_at := now }

/-- C10: every upload that carries a file succeeds and, beyond inserting
the pending video and its tags, always inserts exactly one processing
job — type `metadata_extraction`, status `queued`, priority 5, against
the new video — and pushes the matching descriptor onto the dispatch
queue, although the caller requested no job. -/
theorem upload_always_queues_metadata_job (db : Db) (caller : AuthUser)
    (f : UploadFile) (body : VideoUploadBody) (videoId jobId now : Nat) :
    uploadVideo db caller (some f) body videoId jobId now =
      .ok ({ db with
              videos := db.videos ++ [uploadedVideo caller f body videoId now]
              video_tags := db.video_tags ++ (body.tags.getD []).map (fun t => (videoId, t))
              jobs := db.jobs ++ [initialJob videoId jobId now]
              queue := initialDescriptor f videoId jobId now :: db.queue },
           uploadedVideo caller f body videoId now, jobId) ∧
    (initialJob videoId jobId now).job_type = .metadata_extraction ∧
    (initialJob videoId jobId now).status = .queued ∧
    (initialJob videoId jobId now).priority = 5 ∧
    (initialJob videoId jobId now).video_id = videoId ∧
    (initialDescriptor f videoId jobId now).job_id = jobId ∧
    (initialDescriptor f videoId jobId now).job_type = .metadata_extraction ∧
    (initialDescriptor f videoId jobId now).priority = 5 :=
  ⟨rfl, rfl, rfl, rfl, rfl, rfl, rfl, rfl⟩

end VideoPlatform
